import Mathlib

/-!
Verification development for a multi-page weather dashboard.

The repository consists of three Streamlit pages:
* `pages/1_Weather_Analysis.py`  — city lookup, weather fetch, hourly reshaping, statistics;
* `pages/2Weather_Insights.py`   — LLM context building and error classification;
* `pages/3_Weather_Chatbot.py`   — chat city extraction and chatbot error classification.

Each page is embedded below in its own namespace (`Page1`, `Page2`, `Page3`).
Numbers that are Python floats are modelled as rationals (`ℚ`), Python `None`
as `Option.none`, Python dicts with possibly-missing keys as `Option`-valued
fields, and ISO-8601 timestamp strings as naturals (ISO-8601 order agrees with
the numeric order of the parsed instants).  String formatting of timestamps
(`strftime`) is not modelled; the record keeps the parsed timestamp itself.
-/

namespace Util

/-- Python `str.lower()` (character-wise lowering; these inputs are ASCII). -/
def pyLowerChars (l : List Char) : List Char := l.map Char.toLower

/-- Python `str.lower()` on a whole string. -/
def pyLower (s : String) : String := ⟨pyLowerChars s.data⟩

/-- Leading-whitespace removal, the first half of Python `str.strip()`. -/
def ltrimChars (l : List Char) : List Char := l.dropWhile Char.isWhitespace

/-- Trailing-whitespace removal, the second half of Python `str.strip()`. -/
def rtrimChars (l : List Char) : List Char := (ltrimChars l.reverse).reverse

/-- Python `str.strip()`: drop whitespace from both ends. -/
def trimChars (l : List Char) : List Char := rtrimChars (ltrimChars l)

/-- Python `str.strip()` on a whole string. -/
def pyStrip (s : String) : String := ⟨trimChars s.data⟩

/-- Index of the first occurrence of `pat` in a character list
(Python `str.find`), `none` when absent (`pat in s` is `(findSub ..).isSome`). -/
def findSub (pat : List Char) : List Char → Option Nat
  | [] => if pat.isPrefixOf ([] : List Char) then some 0 else none
  | c :: t => if pat.isPrefixOf (c :: t) then some 0 else (findSub pat t).map (· + 1)

/-- Python `pat in s` substring test. -/
def containsSub (hay pat : List Char) : Bool := (findSub pat hay).isSome

/-- `containsSub` on whole strings. -/
def strContains (hay pat : String) : Bool := containsSub hay.data pat.data

/-- Lexicographic comparison of character lists by code point — the string
order used by Python (and hence by pandas when sorting string values). -/
def lexLe : List Char → List Char → Bool
  | [], _ => true
  | _ :: _, [] => false
  | a :: as, b :: bs =>
    if a.toNat < b.toNat then true
    else if a.toNat = b.toNat then lexLe as bs
    else false

/-- `lexLe` on whole strings. -/
def strLe (a b : String) : Bool := lexLe a.data b.data

end Util

namespace Page1

/-- The hard-coded `city_database` of `fallback_city_lookup`
(`pages/1_Weather_Analysis.py`), key → (latitude, longitude, formatted name). -/
def city_database : List (String × ℚ × ℚ × String) :=
  [ ("atlanta", (33.7490, -84.3880, "Atlanta, Georgia, USA")),
    ("new york", (40.7128, -74.0060, "New York, New York, USA")),
    ("los angeles", (34.0522, -118.2437, "Los Angeles, California, USA")),
    ("chicago", (41.8781, -87.6298, "Chicago, Illinois, USA")),
    ("houston", (29.7604, -95.3698, "Houston, Texas, USA")),
    ("miami", (25.7617, -80.1918, "Miami, Florida, USA")),
    ("boston", (42.3601, -71.0589, "Boston, Massachusetts, USA")),
    ("seattle", (47.6062, -122.3321, "Seattle, Washington, USA")),
    ("san francisco", (37.7749, -122.4194, "San Francisco, California, USA")),
    ("denver", (39.7392, -104.9903, "Denver, Colorado, USA")),
    ("washington", (38.9072, -77.0369, "Washington, D.C., USA")),
    ("philadelphia", (39.9526, -75.1652, "Philadelphia, Pennsylvania, USA")),
    ("phoenix", (33.4484, -112.0740, "Phoenix, Arizona, USA")),
    ("las vegas", (36.1699, -115.1398, "Las Vegas, Nevada, USA")),
    ("portland", (45.5152, -122.6784, "Portland, Oregon, USA")),
    ("austin", (30.2672, -97.7431, "Austin, Texas, USA")),
    ("nashville", (36.1627, -86.7816, "Nashville, Tennessee, USA")),
    ("london", (51.5074, -0.1278, "London, United Kingdom")),
    ("paris", (48.8566, 2.3522, "Paris, France")),
    ("tokyo", (35.6762, 139.6503, "Tokyo, Japan")),
    ("sydney", (33.8688, 151.2093, "Sydney, Australia")),
    ("toronto", (43.6532, -79.3832, "Toronto, Canada")),
    ("berlin", (52.5200, 13.4050, "Berlin, Germany")),
    ("rome", (41.9028, 12.4964, "Rome, Italy")),
    ("madrid", (40.4168, -3.7038, "Madrid, Spain")),
    ("amsterdam", (52.3676, 4.9041, "Amsterdam, Netherlands")),
    ("dubai", (25.2048, 55.2708, "Dubai, UAE")),
    ("singapore", (1.3521, 103.8198, "Singapore")),
    ("hong kong", (22.3193, 114.1694, "Hong Kong")),
    ("moscow", (55.7558, 37.6173, "Moscow, Russia")),
    ("beijing", (39.9042, 116.4074, "Beijing, China")),
    ("mumbai", (19.0760, 72.8777, "Mumbai, India")),
    ("rio de janeiro", (-22.9068, -43.1729, "Rio de Janeiro, Brazil")),
    ("barcelona", (41.3851, 2.1734, "Barcelona, Spain")),
    ("melbourne", (-37.8136, 144.9631, "Melbourne, Australia")),
    ("vancouver", (49.2827, -123.1207, "Vancouver, Canada")),
    ("bangkok", (13.7563, 100.5018, "Bangkok, Thailand")) ]

/-- `fallback_city_lookup(city_name)`: normalize with `lower().strip()` and
look the result up in `city_database`; `None` when absent (the `st.error`
branch only renders a message and returns `None`). -/
def fallback_city_lookup (city_name : String) : Option (ℚ × ℚ × String) :=
  city_database.lookup (Util.pyStrip (Util.pyLower city_name))

/-- The WMO table of `get_weather_description` (`pages/1_Weather_Analysis.py`),
code → (description, emoji). -/
def weather_codes : List (Int × String × String) :=
  [ (0, ("Clear sky", "☀️")),
    (1, ("Mainly clear", "🌤️")),
    (2, ("Partly cloudy", "⛅")),
    (3, ("Overcast", "☁️")),
    (45, ("Foggy", "🌫️")),
    (48, ("Foggy", "🌫️")),
    (51, ("Light drizzle", "🌦️")),
    (53, ("Moderate drizzle", "🌦️")),
    (55, ("Dense drizzle", "🌧️")),
    (61, ("Slight rain", "🌧️")),
    (63, ("Moderate rain", "🌧️")),
    (65, ("Heavy rain", "🌧️")),
    (71, ("Slight snow", "🌨️")),
    (73, ("Moderate snow", "🌨️")),
    (75, ("Heavy snow", "❄️")),
    (77, ("Snow grains", "❄️")),
    (80, ("Slight rain showers", "🌦️")),
    (81, ("Moderate rain showers", "🌧️")),
    (82, ("Violent rain showers", "⛈️")),
    (85, ("Slight snow showers", "🌨️")),
    (86, ("Heavy snow showers", "❄️")),
    (95, ("Thunderstorm", "⛈️")),
    (96, ("Thunderstorm with hail", "⛈️")),
    (99, ("Thunderstorm with hail", "⛈️")) ]

/-- `get_weather_description(weather_code)`: Python
`weather_codes.get(code, ("Unknown", thermometer))`. -/
def get_weather_description (weather_code : Int) : String × String :=
  (weather_codes.lookup weather_code).getD ("Unknown", "🌡️")

/-- The `"hourly"` member of a forecast response: parallel arrays keyed by
field name, one entry per hour.  Timestamps are modelled as naturals. -/
structure HourlyArrays where
  time : List Nat
  temperature_2m : List ℚ
  relative_humidity_2m : List ℚ
  apparent_temperature : List ℚ
  precipitation_probability : List ℚ
  weather_code : List Int
  cloud_cover : List ℚ
  wind_speed_10m : List ℚ
deriving DecidableEq

/-- A forecast response as far as `process_hourly_forecast` reads it; the
`hourly` key may be absent (`none`). -/
structure ForecastData where
  hourly : Option HourlyArrays
deriving DecidableEq

/-- One row of the DataFrame built by `process_hourly_forecast`.  The
`date`/`time` columns of the source are `strftime` renderings of `datetime`
and are not modelled separately. -/
structure HourlyRecord where
  datetime : Nat
  temperature : ℚ
  feels_like : ℚ
  humidity : ℚ
  precipitation_prob : ℚ
  wind_speed : ℚ
  clouds : ℚ
  weather_code : Int
  weather_desc : String
  weather_emoji : String
deriving DecidableEq

/-- The row built for hour index `i` (body of the loop in
`process_hourly_forecast`).  Python list indexing is modelled with `getD`;
on well-formed input (every array at least as long as `time`) the default is
never reached. -/
def hourlyRow (h : HourlyArrays) (i : Nat) : HourlyRecord :=
  { datetime := h.time.getD i 0
    temperature := h.temperature_2m.getD i 0
    feels_like := h.apparent_temperature.getD i 0
    humidity := h.relative_humidity_2m.getD i 0
    precipitation_prob := h.precipitation_probability.getD i 0
    wind_speed := h.wind_speed_10m.getD i 0
    clouds := h.cloud_cover.getD i 0
    weather_code := h.weather_code.getD i 0
    weather_desc := (get_weather_description (h.weather_code.getD i 0)).1
    weather_emoji := (get_weather_description (h.weather_code.getD i 0)).2 }

/-- `process_hourly_forecast(forecast_data, days)`: `None` for falsy input or
a missing `"hourly"` key, otherwise one row per
`i in range(min(days * 24, len(hourly.time)))`. -/
def process_hourly_forecast (forecast_data : Option ForecastData) (days : Nat) :
    Option (List HourlyRecord) :=
  match forecast_data with
  | none => none
  | some fd =>
    match fd.hourly with
    | none => none
    | some h =>
      let hours_to_show := days * 24
      some ((List.range (min hours_to_show h.time.length)).map (hourlyRow h))

/-- Every parallel hourly array has at least as many entries as `time`
(the well-formedness assumption under which the Python loop cannot
index-error). -/
def wellFormedHourly (h : HourlyArrays) : Prop :=
  h.time.length ≤ h.temperature_2m.length ∧
  h.time.length ≤ h.relative_humidity_2m.length ∧
  h.time.length ≤ h.apparent_temperature.length ∧
  h.time.length ≤ h.precipitation_probability.length ∧
  h.time.length ≤ h.weather_code.length ∧
  h.time.length ≤ h.cloud_cover.length ∧
  h.time.length ≤ h.wind_speed_10m.length

instance (h : HourlyArrays) : Decidable (wellFormedHourly h) := by
  unfold wellFormedHourly; infer_instance

/-- The number of occurrences of the most frequent element
(`value_counts` maximum). -/
def maxFreq (l : List String) : Nat := (l.map (fun v => l.count v)).foldr max 0

/-- The least element of a list of strings, `none` on the empty list.  This is
the head of the list sorted in ascending order, which is how pandas presents
the result of `Series.mode()`. -/
def leastString : List String → Option String
  | [] => none
  | s :: t =>
    match leastString t with
    | none => some s
    | some m => some (if Util.strLe s m then s else m)

/-- `df['weather_desc'].mode()[0]` (the `most_common_weather` computation):
pandas collects the values of maximal count and returns them sorted in
ascending order; `[0]` therefore selects the least such value. -/
def most_common_weather (l : List String) : Option String :=
  leastString (l.dedup.filter (fun v => l.count v = maxFreq l))

/-- The mode described by the spec: the most frequent value with ties broken
by the value first encountered in iteration order. -/
def spec_mode_first_encountered (l : List String) : Option String :=
  l.find? (fun v => l.count v = maxFreq l)

/-- A current-weather payload (the `"current"` member requested by
`fetch_current_weather`); its contents are irrelevant to the fetch-handler
frame property but are kept for fidelity. -/
structure CurrentData where
  temperature_2m : ℚ
  relative_humidity_2m : ℚ
  apparent_temperature : ℚ
  precipitation : ℚ
  weather_code : Int
  cloud_cover : ℚ
  wind_speed_10m : ℚ
  wind_direction_10m : ℚ
deriving DecidableEq

/-- The per-session keys written by the fetch-button handler.  A key that was
never written is `none`. -/
structure SessionState where
  current_weather : Option CurrentData
  forecast_data : Option ForecastData
  location : Option String
  city_name : Option String
  unit_symbol : Option String
  wind_unit : Option String
  forecast_days : Option Nat
deriving DecidableEq

/-- The body of `if st.button("Fetch Weather Data")` in
`pages/1_Weather_Analysis.py`: geocode, fetch current weather and forecast,
and only when both fetches succeed store all seven session keys; on any
failure the session state is left untouched (the error branches only render
messages). -/
def fetch_button_handler (s : SessionState)
    (coords : Option (ℚ × ℚ × String))
    (fetchCurrent : ℚ → ℚ → Option CurrentData)
    (fetchForecast : ℚ → ℚ → Option ForecastData)
    (city_input unit_symbol wind_unit : String) (forecast_days : Nat) :
    SessionState :=
  match coords with
  | none => s
  | some (lat, lon, full_location) =>
    match fetchCurrent lat lon, fetchForecast lat lon with
    | some cw, some fd =>
      { current_weather := some cw
        forecast_data := some fd
        location := some full_location
        city_name := some city_input
        unit_symbol := some unit_symbol
        wind_unit := some wind_unit
        forecast_days := some forecast_days }
    | _, _ => s

end Page1

namespace Page2

/-- Round a rational to the nearest integer, halves to the even neighbour —
the rounding used by Python's built-in `round`. -/
def roundHalfEven (x : ℚ) : ℤ :=
  let f : ℤ := ⌊x⌋
  if x - f < 1 / 2 then f
  else if x - f > 1 / 2 then f + 1
  else if f % 2 = 0 then f else f + 1

/-- Python `round(x, 1)`: round to one decimal place. -/
def round1 (x : ℚ) : ℚ := (roundHalfEven (10 * x) : ℚ) / 10

/-- The `codes` table of `get_weather_description` in
`pages/2Weather_Insights.py` (labels only, no icons). -/
def codes : List (Int × String) :=
  [ (0, "Clear sky"), (1, "Mainly clear"), (2, "Partly cloudy"), (3, "Overcast"),
    (45, "Foggy"), (48, "Foggy"), (51, "Light drizzle"), (53, "Drizzle"),
    (55, "Heavy drizzle"), (61, "Slight rain"), (63, "Rain"), (65, "Heavy rain"),
    (71, "Slight snow"), (73, "Snow"), (75, "Heavy snow"), (77, "Snow grains"),
    (80, "Rain showers"), (81, "Rain showers"), (82, "Heavy rain showers"),
    (85, "Snow showers"), (86, "Heavy snow showers"), (95, "Thunderstorm"),
    (96, "Thunderstorm with hail"), (99, "Heavy thunderstorm") ]

/-- `get_weather_description(weather_code)` of `pages/2Weather_Insights.py`:
Python `codes.get(code, "Unknown")`. -/
def get_weather_description (weather_code : Int) : String :=
  (codes.lookup weather_code).getD "Unknown"

/-- The `"current"` member of the response fetched by `fetch_weather_data`. -/
structure InsightsCurrent where
  temperature_2m : ℚ
  relative_humidity_2m : ℚ
  apparent_temperature : ℚ
  weather_code : Int
  wind_speed_10m : ℚ
deriving DecidableEq

/-- The `"daily"` member: parallel arrays, one entry per day. -/
structure DailyArrays where
  time : List Nat
  weather_code : List Int
  temperature_2m_max : List ℚ
  temperature_2m_min : List ℚ
  precipitation_sum : List ℚ
  wind_speed_10m_max : List ℚ
deriving DecidableEq

/-- A weather response as far as `process_weather_for_llm` reads it. -/
structure WeatherData where
  current : InsightsCurrent
  daily : DailyArrays
deriving DecidableEq

/-- The `"current"` part of the processed LLM context. -/
structure CurrentContext where
  temperature : ℚ
  feels_like : ℚ
  humidity : ℚ
  wind_speed : ℚ
  condition : String
deriving DecidableEq

/-- One entry of the `"forecast"` list of the processed LLM context.  The
`date` field of the source is a `strftime` rendering of the timestamp and is
modelled by the timestamp itself. -/
structure DayContext where
  date : Nat
  temp_max : ℚ
  temp_min : ℚ
  precipitation : ℚ
  wind_max : ℚ
  condition : String
deriving DecidableEq

/-- The whole processed object returned by `process_weather_for_llm`. -/
structure ProcessedWeather where
  city : String
  current : CurrentContext
  forecast : List DayContext
deriving DecidableEq

/-- The forecast entry built for day index `i` (body of the loop in
`process_weather_for_llm`); list indexing modelled with `getD` as in
`Page1.hourlyRow`. -/
def dayContext (d : DailyArrays) (i : Nat) : DayContext :=
  { date := d.time.getD i 0
    temp_max := round1 (d.temperature_2m_max.getD i 0)
    temp_min := round1 (d.temperature_2m_min.getD i 0)
    precipitation := round1 (d.precipitation_sum.getD i 0)
    wind_max := round1 (d.wind_speed_10m_max.getD i 0)
    condition := get_weather_description (d.weather_code.getD i 0) }

/-- `process_weather_for_llm(weather_data, city_name)`: the current snapshot
(temperature, feels-like and wind speed rounded to one decimal, humidity
copied as is) plus one entry per `i in range(min(5, len(daily.time)))`. -/
def process_weather_for_llm (weather_data : WeatherData) (city_name : String) :
    ProcessedWeather :=
  { city := city_name
    current :=
      { temperature := round1 weather_data.current.temperature_2m
        feels_like := round1 weather_data.current.apparent_temperature
        humidity := weather_data.current.relative_humidity_2m
        wind_speed := round1 weather_data.current.wind_speed_10m
        condition := get_weather_description weather_data.current.weather_code }
    forecast :=
      (List.range (min 5 weather_data.daily.time.length)).map
        (dayContext weather_data.daily) }

/-- Every parallel daily array has at least as many entries as `time`. -/
def wellFormedDaily (d : DailyArrays) : Prop :=
  d.time.length ≤ d.weather_code.length ∧
  d.time.length ≤ d.temperature_2m_max.length ∧
  d.time.length ≤ d.temperature_2m_min.length ∧
  d.time.length ≤ d.precipitation_sum.length ∧
  d.time.length ≤ d.wind_speed_10m_max.length

instance (d : DailyArrays) : Decidable (wellFormedDaily d) := by
  unfold wellFormedDaily; infer_instance

/-- The `except` branch's rate-limit reply of `generate_ai_insights`. -/
def rate_limit_message : String :=
  "⚠️ API rate limit reached. Please wait a moment and try again."

/-- The `except` branch's content-filter reply of `generate_ai_insights`. -/
def content_filtered_message : String :=
  "⚠️ Content filtered. Please rephrase your request."

/-- `generate_ai_insights(prompt, context_data, gemini_key)`: the underlying
Gemini call either yields text (`Except.ok`) or raises with a message
(`Except.error`); the `try/except Exception` wrapper lowercases the message
and classifies it by substring, always returning a string. -/
def generate_ai_insights (llm_result : Except String String) : String :=
  match llm_result with
  | .ok text => text
  | .error e =>
    let error_msg := Util.pyLower e
    if Util.strContains error_msg "quota" || Util.strContains error_msg "rate" then
      rate_limit_message
    else if Util.strContains error_msg "safety" then
      content_filtered_message
    else
      "⚠️ Error: " ++ e

end Page2

namespace Page3

/-- The `weather_codes` table inside `fetch_weather_for_chatbot`
(`pages/3_Weather_Chatbot.py`). -/
def weather_codes : List (Int × String) :=
  [ (0, "Clear sky"), (1, "Mainly clear"), (2, "Partly cloudy"), (3, "Overcast"),
    (45, "Foggy"), (61, "Rain"), (63, "Rain"), (65, "Heavy rain"),
    (71, "Snow"), (73, "Snow"), (75, "Heavy snow"), (95, "Thunderstorm") ]

/-- The chatbot page's code-to-description lookup:
Python `weather_codes.get(code, "Unknown")`. -/
def weather_desc (weather_code : Int) : String :=
  (weather_codes.lookup weather_code).getD "Unknown"

/-- `get_chatbot_response(chat, user_message, weather_data)`: the underlying
`chat.send_message` either yields text or raises; the `except` branch
lowercases the message and classifies it by substring, always returning a
string. -/
def get_chatbot_response (llm_result : Except String String) : String :=
  match llm_result with
  | .ok text => text
  | .error e =>
    let error_str := Util.pyLower e
    if Util.strContains error_str "quota" ||
        Util.strContains error_str "resource_exhausted" then
      "⚠️ Rate limit reached. Please wait and try again."
    else if Util.strContains error_str "rate" || Util.strContains error_str "429" then
      "⚠️ Too many requests. Please slow down."
    else if Util.strContains error_str "safety" ||
        Util.strContains error_str "blocked" then
      "⚠️ Content filtered. Please rephrase."
    else if Util.strContains error_str "invalid" ||
        Util.strContains error_str "api_key" then
      "⚠️ API configuration issue."
    else
      "⚠️ Error: " ++ e ++ "\n\nPlease try rephrasing!"

/-- The fixed lead-in phrase list of `extract_city_from_message`. -/
def patterns : List String :=
  [ "weather in ",
    "weather for ",
    "forecast for ",
    "forecast in ",
    "temperature in ",
    "how's the weather in ",
    "what's the weather like in " ]

/-- `rest.split('?')[0].split(',')[0].split('.')[0]`: the prefix before the
first `'?'`, of that the prefix before the first `','`, of that the prefix
before the first `'.'`. -/
def cutAt (l : List Char) : List Char :=
  ((l.takeWhile (fun c => c != '?')).takeWhile (fun c => c != ',')).takeWhile
    (fun c => c != '.')

/-- The loop of `extract_city_from_message` over the remaining patterns:
if the pattern occurs in the lowercased message, take the original message
from the end of its first occurrence, strip, cut at the delimiters, strip
again; a non-empty result is returned, otherwise the next pattern is tried. -/
def extractGo (orig ml : List Char) : List String → Option String
  | [] => none
  | p :: ps =>
    match Util.findSub p.data ml with
    | none => extractGo orig ml ps
    | some i =>
      let rest := Util.trimChars (orig.drop (i + p.data.length))
      let city := Util.trimChars (cutAt rest)
      if city.isEmpty then extractGo orig ml ps else some (String.mk city)

/-- `extract_city_from_message(message)`. -/
def extract_city_from_message (message : String) : Option String :=
  extractGo message.data (Util.pyLowerChars message.data) patterns

/-- The extraction procedure exactly as the specification words it: the
substring of the original message following the phrase's first occurrence in
the lowercased message, cut at the first `'?'`, `','` or `'.'`, and stripped
of surrounding whitespace. -/
def spec_city (message : String) (p : String) (i : Nat) : String :=
  String.mk (Util.trimChars (cutAt (message.data.drop (i + p.data.length))))

end Page3

/-! ## General lemmas about association-list lookup -/

theorem lookup_of_mem_nodup {α β : Type} [DecidableEq α] (l : List (α × β)) :
    ∀ (k : α) (v : β), (l.map Prod.fst).Nodup → (k, v) ∈ l → l.lookup k = some v := by
  induction l with
  | nil => intro k v _ hm; cases hm
  | cons hd t ih =>
    intro k v hnd hm
    obtain ⟨k', v'⟩ := hd
    rw [List.map_cons, List.nodup_cons] at hnd
    rcases List.mem_cons.mp hm with heq | ht
    · obtain ⟨rfl, rfl⟩ := Prod.mk.injEq .. ▸ heq
      simp [List.lookup]
    · have hk : (k == k') = false := by
        refine beq_eq_false_iff_ne.mpr ?_
        rintro rfl
        exact hnd.1 (List.mem_map.mpr ⟨(k, v), ht, rfl⟩)
      simpa [List.lookup, hk] using ih k v hnd.2 ht

theorem lookup_eq_none_iff {α β : Type} [DecidableEq α] (l : List (α × β)) (k : α) :
    l.lookup k = none ↔ k ∉ l.map Prod.fst := by
  induction l with
  | nil => simp [List.lookup]
  | cons hd t ih =>
    obtain ⟨k', v'⟩ := hd
    by_cases hk : k = k'
    · subst hk; simp [List.lookup]
    · simp [List.lookup, beq_eq_false_iff_ne.mpr hk, ih, hk]

/-! ## C3 — `get_weather_description` is a pure total function over the WMO table -/

/-- C3: `get_weather_description` is total on integers; `describe(61)` is
`("Slight rain", rain icon)`, `describe(9999)` is the Unknown sentinel
`("Unknown", fallback icon)`, every code present in the fixed WMO table maps
to exactly its stored (label, icon) pair, and every absent code maps to the
Unknown sentinel. -/
theorem C3_describe_total (c : Int) (v : String × String) :
    Page1.get_weather_description 61 = ("Slight rain", "🌧️") ∧
    Page1.get_weather_description 9999 = ("Unknown", "🌡️") ∧
    ((c, v) ∈ Page1.weather_codes → Page1.get_weather_description c = v) ∧
    (Page1.weather_codes.lookup c = none →
      Page1.get_weather_description c = ("Unknown", "🌡️")) := by
  refine ⟨rfl, rfl, fun hm => ?_, fun hn => ?_⟩
  · have hnd : (Page1.weather_codes.map Prod.fst).Nodup := by decide
    simp [Page1.get_weather_description,
      lookup_of_mem_nodup Page1.weather_codes c v hnd hm]
  · simp [Page1.get_weather_description, hn]

/-- C3 witness: the theorem applied to code 63, which is in the table, and to
its handling of the absent code 42. -/
theorem C3_describe_total_witness :
    Page1.get_weather_description 63 = ("Moderate rain", "🌧️") ∧
    Page1.get_weather_description 42 = ("Unknown", "🌡️") :=
  ⟨(C3_describe_total 63 ("Moderate rain", "🌧️")).2.2.1 (by decide),
   (C3_describe_total 42 ("Moderate rain", "🌧️")).2.2.2 (by decide)⟩

/-! ## C4 — `fallback_city_lookup` resolves table keys case-insensitively -/

/-- C4: any query that lowercases-and-strips to a key of the static fallback
table resolves to exactly the stored (latitude, longitude, display name)
triple; in particular "Atlanta" resolves to Atlanta's stored entry. -/
theorem C4_fallback_table_lookup (q k : String) (v : ℚ × ℚ × String) :
    ((k, v) ∈ Page1.city_database → Util.pyStrip (Util.pyLower q) = k →
      Page1.fallback_city_lookup q = some v) ∧
    Page1.fallback_city_lookup "Atlanta" =
      some (33.7490, -84.3880, "Atlanta, Georgia, USA") := by
  refine ⟨fun hm hq => ?_, rfl⟩
  have hnd : (Page1.city_database.map Prod.fst).Nodup := by decide
  rw [Page1.fallback_city_lookup, hq]
  exact lookup_of_mem_nodup Page1.city_database k v hnd hm

/-- C4 witness: the theorem applied to the query "  ToKyO ", which normalizes
to the table key "tokyo". -/
theorem C4_fallback_table_lookup_witness :
    Page1.fallback_city_lookup "  ToKyO " = some (35.6762, 139.6503, "Tokyo, Japan") := by
  refine (C4_fallback_table_lookup "  ToKyO " "tokyo" (35.6762, 139.6503, "Tokyo, Japan")).1
    ?_ (by decide)
  unfold Page1.city_database
  repeat first
    | exact List.Mem.head _
    | apply List.Mem.tail

/-! ## C2 — `process_hourly_forecast` on empty or malformed input -/

/-- C2 counterexample: on empty input (and likewise when the `hourly` key is
missing) `process_hourly_forecast` returns the `None` sentinel, not an empty
sequence of records, so the claim "returns an empty sequence" is false as
stated. -/
theorem C2_counterexample :
    Page1.process_hourly_forecast none 5 = none ∧
    Page1.process_hourly_forecast none 5 ≠ some ([] : List Page1.HourlyRecord) ∧
    Page1.process_hourly_forecast (some ⟨none⟩) 5 = none ∧
    Page1.process_hourly_forecast (some ⟨none⟩) 5 ≠
      some ([] : List Page1.HourlyRecord) :=
  ⟨rfl, by simp [Page1.process_hourly_forecast], rfl,
   by simp [Page1.process_hourly_forecast]⟩

/-- C2 amended: for every input that is empty/`None` or lacks the `hourly`
key, `process_hourly_forecast` returns the `None` sentinel (carrying no
hourly records) and never raises; callers must check for `None`/emptiness
before computing statistics. -/
theorem C2_amended_returns_none (fd : Page1.ForecastData) (days : Nat)
    (h : fd.hourly = none) :
    Page1.process_hourly_forecast none days = none ∧
    Page1.process_hourly_forecast (some fd) days = none := by
  obtain ⟨hv⟩ := fd
  cases h
  exact ⟨rfl, rfl⟩

/-- C2 witness: the amended theorem applied to a concrete record without an
`hourly` key and 5 requested days. -/
theorem C2_amended_returns_none_witness :
    Page1.process_hourly_forecast none 5 = none ∧
    Page1.process_hourly_forecast (some ⟨none⟩) 5 = none :=
  C2_amended_returns_none ⟨none⟩ 5 rfl

/-! ## C8 — failed fetches leave the session state unchanged -/

/-- C8: the fetch-button handler leaves every stored session key untouched
when geocoding fails or when either the current-weather fetch or the
forecast fetch fails; all seven keys are (re)written exactly when both
fetches succeed. -/
theorem C8_fetch_failure_frame (s : Page1.SessionState) (lat lon : ℚ)
    (loc city us wu : String) (days : Nat)
    (fc : ℚ → ℚ → Option Page1.CurrentData)
    (ff : ℚ → ℚ → Option Page1.ForecastData) :
    (Page1.fetch_button_handler s none fc ff city us wu days = s) ∧
    (fc lat lon = none ∨ ff lat lon = none →
      Page1.fetch_button_handler s (some (lat, lon, loc)) fc ff city us wu days = s) ∧
    (∀ cw fd, fc lat lon = some cw → ff lat lon = some fd →
      Page1.fetch_button_handler s (some (lat, lon, loc)) fc ff city us wu days =
        { current_weather := some cw
          forecast_data := some fd
          location := some loc
          city_name := some city
          unit_symbol := some us
          wind_unit := some wu
          forecast_days := some days }) := by
  refine ⟨rfl, fun h => ?_, fun cw fd hc hf => ?_⟩
  · rcases h with h | h
    · cases hff : ff lat lon <;> simp [Page1.fetch_button_handler, h, hff]
    · cases hfc : fc lat lon <;> simp [Page1.fetch_button_handler, h, hfc]
  · simp [Page1.fetch_button_handler, hc, hf]

/-- C8 witness: the theorem applied to a session already holding data and a
pair of fetchers of which the forecast fetch fails; the stored state
survives unchanged. -/
theorem C8_fetch_failure_frame_witness :
    Page1.fetch_button_handler
      { current_weather := some ⟨1, 2, 3, 4, 5, 6, 7, 8⟩
        forecast_data := some ⟨none⟩
        location := some "Atlanta, Georgia, USA"
        city_name := some "Atlanta"
        unit_symbol := some "°C"
        wind_unit := some "km/h"
        forecast_days := some 3 }
      (some (9, 9, "Paris, France")) (fun _ _ => some ⟨1, 2, 3, 4, 5, 6, 7, 8⟩)
      (fun _ _ => none) "Paris" "°C" "km/h" 7 =
      { current_weather := some ⟨1, 2, 3, 4, 5, 6, 7, 8⟩
        forecast_data := some ⟨none⟩
        location := some "Atlanta, Georgia, USA"
        city_name := some "Atlanta"
        unit_symbol := some "°C"
        wind_unit := some "km/h"
        forecast_days := some 3 } :=
  (C8_fetch_failure_frame _ 9 9 "Paris, France" "Paris" "°C" "km/h" 7 _ _).2.1
    (Or.inr rfl)

/-! ## C10 — the three weather-code tables do not agree -/

/-- C10 counterexample: the three embedded code-to-label tables are not one
mapping: code 63 is "Moderate rain" on the analysis page but "Rain" on the
insights page, and code 61 is "Slight rain" on the insights page but "Rain"
on the chatbot page. -/
theorem C10_counterexample :
    (Page1.get_weather_description 63).1 = "Moderate rain" ∧
    Page2.get_weather_description 63 = "Rain" ∧
    (Page1.get_weather_description 63).1 ≠ Page2.get_weather_description 63 ∧
    Page2.get_weather_description 61 = "Slight rain" ∧
    Page3.weather_desc 61 = "Rain" ∧
    Page2.get_weather_description 61 ≠ Page3.weather_desc 61 := by
  refine ⟨rfl, rfl, ?_, rfl, rfl, ?_⟩ <;> decide

/-- C10 amended: the three tables agree only partially — they give the same
label on codes 0, 1, 2, 3, 45, 65, 75 and 95, and on every code absent from
the analysis page's table (whose key set contains the other two key sets)
all three return "Unknown"; on the remaining codes of the tables they
disagree (witnessed by the counterexample). -/
theorem C10_amended (c : Int) :
    (c ∈ ([0, 1, 2, 3, 45, 65, 75, 95] : List Int) →
      (Page1.get_weather_description c).1 = Page2.get_weather_description c ∧
      Page2.get_weather_description c = Page3.weather_desc c) ∧
    (Page1.weather_codes.lookup c = none →
      (Page1.get_weather_description c).1 = "Unknown" ∧
      Page2.get_weather_description c = "Unknown" ∧
      Page3.weather_desc c = "Unknown") := by
  constructor
  · intro hm
    fin_cases hm <;> exact ⟨rfl, rfl⟩
  · intro hn
    have h1 : c ∉ Page1.weather_codes.map Prod.fst :=
      (lookup_eq_none_iff Page1.weather_codes c).mp hn
    have hsub2 : ∀ k ∈ Page2.codes.map Prod.fst,
        k ∈ Page1.weather_codes.map Prod.fst := by decide
    have hsub3 : ∀ k ∈ Page3.weather_codes.map Prod.fst,
        k ∈ Page1.weather_codes.map Prod.fst := by decide
    have h2 : Page2.codes.lookup c = none :=
      (lookup_eq_none_iff Page2.codes c).mpr (fun hc => h1 (hsub2 c hc))
    have h3 : Page3.weather_codes.lookup c = none :=
      (lookup_eq_none_iff Page3.weather_codes c).mpr (fun hc => h1 (hsub3 c hc))
    exact ⟨by simp [Page1.get_weather_description, hn],
      by simp [Page2.get_weather_description, h2],
      by simp [Page3.weather_desc, h3]⟩

/-- C10 witness: the amended theorem applied to the shared code 0 and to the
code 100, which is absent from all three tables. -/
theorem C10_amended_witness :
    ((Page1.get_weather_description 0).1 = Page2.get_weather_description 0 ∧
      Page2.get_weather_description 0 = Page3.weather_desc 0) ∧
    ((Page1.get_weather_description 100).1 = "Unknown" ∧
      Page2.get_weather_description 100 = "Unknown" ∧
      Page3.weather_desc 100 = "Unknown") :=
  ⟨(C10_amended 0).1 (by decide), (C10_amended 100).2 (by decide)⟩

/-! ## C9 — LLM failure classification -/

/-- C9 counterexample: the claimed classification is not exact.  On the
chatbot page an error containing "invalid" (but none of "quota", "rate",
"safety") yields the fixed configuration message, which does not carry the
original error text; and on the insights page an error containing both
"rate" and "safety" yields the rate-limit message, not the content-filter
message. -/
theorem C9_counterexample :
    Page3.get_chatbot_response (Except.error "invalid") = "⚠️ API configuration issue." ∧
    Util.strContains "⚠️ API configuration issue." "invalid" = false ∧
    Util.strContains (Util.pyLower "rate safety") "safety" = true ∧
    Page2.generate_ai_insights (Except.error "rate safety") = Page2.rate_limit_message ∧
    Page2.rate_limit_message ≠ Page2.content_filtered_message := by
  refine ⟨rfl, by decide, by decide, rfl, by decide⟩

/-- C9 amended: both wrappers are total functions returning a message string
(never raising), classifying by substring of the lowercased error text in
branch order.  Insights page: "quota"/"rate" → rate-limit message; else
"safety" → content-filter message; else a generic message carrying the
original error text.  Chatbot page: "quota"/"resource_exhausted" → rate-limit
reply; else "rate"/"429" → slow-down reply; else "safety"/"blocked" →
content-filter reply; else "invalid"/"api_key" → a fixed configuration
message (which does not carry the error text); else a generic message
carrying the original error text. -/
theorem C9_amended (e t : String) :
    Page2.generate_ai_insights (Except.ok t) = t ∧
    Page3.get_chatbot_response (Except.ok t) = t ∧
    ((Util.strContains (Util.pyLower e) "quota" ||
        Util.strContains (Util.pyLower e) "rate") = true →
      Page2.generate_ai_insights (Except.error e) = Page2.rate_limit_message) ∧
    ((Util.strContains (Util.pyLower e) "quota" ||
        Util.strContains (Util.pyLower e) "rate") = false →
      Util.strContains (Util.pyLower e) "safety" = true →
      Page2.generate_ai_insights (Except.error e) = Page2.content_filtered_message) ∧
    ((Util.strContains (Util.pyLower e) "quota" ||
        Util.strContains (Util.pyLower e) "rate") = false →
      Util.strContains (Util.pyLower e) "safety" = false →
      Page2.generate_ai_insights (Except.error e) = "⚠️ Error: " ++ e) ∧
    ((Util.strContains (Util.pyLower e) "quota" ||
        Util.strContains (Util.pyLower e) "resource_exhausted") = true →
      Page3.get_chatbot_response (Except.error e) =
        "⚠️ Rate limit reached. Please wait and try again.") ∧
    ((Util.strContains (Util.pyLower e) "quota" ||
        Util.strContains (Util.pyLower e) "resource_exhausted") = false →
      (Util.strContains (Util.pyLower e) "rate" ||
        Util.strContains (Util.pyLower e) "429") = true →
      Page3.get_chatbot_response (Except.error e) =
        "⚠️ Too many requests. Please slow down.") ∧
    ((Util.strContains (Util.pyLower e) "quota" ||
        Util.strContains (Util.pyLower e) "resource_exhausted") = false →
      (Util.strContains (Util.pyLower e) "rate" ||
        Util.strContains (Util.pyLower e) "429") = false →
      (Util.strContains (Util.pyLower e) "safety" ||
        Util.strContains (Util.pyLower e) "blocked") = true →
      Page3.get_chatbot_response (Except.error e) =
        "⚠️ Content filtered. Please rephrase.") ∧
    ((Util.strContains (Util.pyLower e) "quota" ||
        Util.strContains (Util.pyLower e) "resource_exhausted") = false →
      (Util.strContains (Util.pyLower e) "rate" ||
        Util.strContains (Util.pyLower e) "429") = false →
      (Util.strContains (Util.pyLower e) "safety" ||
        Util.strContains (Util.pyLower e) "blocked") = false →
      (Util.strContains (Util.pyLower e) "invalid" ||
        Util.strContains (Util.pyLower e) "api_key") = true →
      Page3.get_chatbot_response (Except.error e) = "⚠️ API configuration issue.") ∧
    ((Util.strContains (Util.pyLower e) "quota" ||
        Util.strContains (Util.pyLower e) "resource_exhausted") = false →
      (Util.strContains (Util.pyLower e) "rate" ||
        Util.strContains (Util.pyLower e) "429") = false →
      (Util.strContains (Util.pyLower e) "safety" ||
        Util.strContains (Util.pyLower e) "blocked") = false →
      (Util.strContains (Util.pyLower e) "invalid" ||
        Util.strContains (Util.pyLower e) "api_key") = false →
      Page3.get_chatbot_response (Except.error e) =
        "⚠️ Error: " ++ e ++ "\n\nPlease try rephrasing!") := by
  refine ⟨rfl, rfl, ?_, ?_, ?_, ?_, ?_, ?_, ?_, ?_⟩
  · intro h1; simp [Page2.generate_ai_insights, h1]
  · intro h1 h2; simp [Page2.generate_ai_insights, h1, h2]
  · intro h1 h2; simp [Page2.generate_ai_insights, h1, h2]
  · intro h1; simp [Page3.get_chatbot_response, h1]
  · intro h1 h2; simp [Page3.get_chatbot_response, h1, h2]
  · intro h1 h2 h3; simp [Page3.get_chatbot_response, h1, h2, h3]
  · intro h1 h2 h3 h4; simp [Page3.get_chatbot_response, h1, h2, h3, h4]
  · intro h1 h2 h3 h4; simp [Page3.get_chatbot_response, h1, h2, h3, h4]

/-- C9 witness: the amended theorem applied to the errors "Quota exceeded",
"safety block", "boom" and "HTTP 429". -/
theorem C9_amended_witness :
    Page2.generate_ai_insights (Except.error "Quota exceeded") =
      Page2.rate_limit_message ∧
    Page2.generate_ai_insights (Except.error "safety block") =
      Page2.content_filtered_message ∧
    Page2.generate_ai_insights (Except.error "boom") = "⚠️ Error: boom" ∧
    Page3.get_chatbot_response (Except.error "HTTP 429") =
      "⚠️ Too many requests. Please slow down." ∧
    Page3.get_chatbot_response (Except.error "boom") =
      "⚠️ Error: boom\n\nPlease try rephrasing!" :=
  ⟨(C9_amended "Quota exceeded" "").2.2.1 (by decide),
   (C9_amended "safety block" "").2.2.2.1 (by decide) (by decide),
   (C9_amended "boom" "").2.2.2.2.1 (by decide) (by decide),
   (C9_amended "HTTP 429" "").2.2.2.2.2.2.1 (by decide) (by decide),
   (C9_amended "boom" "").2.2.2.2.2.2.2.2.2 (by decide) (by decide) (by decide)
     (by decide)⟩

/-! ## C1 — `process_hourly_forecast` length and order -/

/-- Reading successive positions of a list with a default yields its prefix,
as long as the positions stay in range. -/
theorem map_getD_range {α : Type} (l : List α) (d : α) (n : Nat) (hn : n ≤ l.length) :
    (List.range n).map (fun i => l.getD i d) = l.take n := by
  apply List.ext_getElem
  · simp [Nat.min_eq_left hn]
  · intro i h1 h2
    have hi : i < n := by simpa using h1
    have hil : i < l.length := lt_of_lt_of_le hi hn
    simp [List.getElem_take, List.getElem?_eq_getElem hil]

/-- C1: on a well-formed forecast response (every hourly field array at least
as long as `hourly.time`) and `days ∈ 1..7`, `process_hourly_forecast`
returns exactly `min (days * 24) (len time)` hourly records whose timestamps
are the corresponding prefix of the source `time` array in source order; in
particular chronological (non-decreasing) source timestamps stay
non-decreasing. -/
theorem C1_process_hourly_length_order (fd : Page1.ForecastData)
    (h : Page1.HourlyArrays) (days : Nat) (hh : fd.hourly = some h)
    (hd1 : 1 ≤ days) (hd7 : days ≤ 7) (hwf : Page1.wellFormedHourly h) :
    ∃ rows : List Page1.HourlyRecord,
      Page1.process_hourly_forecast (some fd) days = some rows ∧
      rows.length = min (days * 24) h.time.length ∧
      rows.map Page1.HourlyRecord.datetime = h.time.take (days * 24) ∧
      (h.time.Pairwise (· ≤ ·) →
        (rows.map Page1.HourlyRecord.datetime).Pairwise (· ≤ ·)) := by
  refine ⟨(List.range (min (days * 24) h.time.length)).map (Page1.hourlyRow h),
    ?_, ?_, ?_, ?_⟩
  · simp [Page1.process_hourly_forecast, hh]
  · simp
  · have hmap : ((List.range (min (days * 24) h.time.length)).map
        (Page1.hourlyRow h)).map Page1.HourlyRecord.datetime =
        (List.range (min (days * 24) h.time.length)).map
          (fun i => h.time.getD i 0) := by
      simp [Page1.hourlyRow, Function.comp]
    rw [hmap, map_getD_range h.time 0 _ (Nat.min_le_right _ _)]
    conv_rhs => rw [← List.take_length (l := h.time), List.take_take]
  · intro hchron
    have hmap : ((List.range (min (days * 24) h.time.length)).map
        (Page1.hourlyRow h)).map Page1.HourlyRecord.datetime =
        h.time.take (days * 24) := by
      have hmap2 : ((List.range (min (days * 24) h.time.length)).map
          (Page1.hourlyRow h)).map Page1.HourlyRecord.datetime =
          (List.range (min (days * 24) h.time.length)).map
            (fun i => h.time.getD i 0) := by
        simp [Page1.hourlyRow, Function.comp]
      rw [hmap2, map_getD_range h.time 0 _ (Nat.min_le_right _ _)]
      conv_rhs => rw [← List.take_length (l := h.time), List.take_take]
    rw [hmap]
    exact hchron.sublist (List.take_sublist _ _)

/-- C1 witness: the theorem applied to a concrete two-hour well-formed
response with 1 requested day. -/
theorem C1_process_hourly_length_order_witness :
    ∃ rows : List Page1.HourlyRecord,
      Page1.process_hourly_forecast
        (some ⟨some ⟨[5, 7], [10, 11], [50, 60], [9, 8], [0, 20], [0, 61],
          [10, 30], [3, 4]⟩⟩) 1 = some rows ∧
      rows.length = min (1 * 24) 2 ∧
      rows.map Page1.HourlyRecord.datetime = [5, 7].take (1 * 24) ∧
      (([5, 7] : List Nat).Pairwise (· ≤ ·) →
        (rows.map Page1.HourlyRecord.datetime).Pairwise (· ≤ ·)) :=
  C1_process_hourly_length_order _
    ⟨[5, 7], [10, 11], [50, 60], [9, 8], [0, 20], [0, 61], [10, 30], [3, 4]⟩ 1
    rfl (by decide) (by decide) (by decide)

/-! ## C5 — the LLM context is a rounded projection of the response -/

/-- C5 counterexample: the claim "every numeric field in the context equals
the corresponding source value rounded to one decimal" fails for humidity,
which `process_weather_for_llm` copies verbatim: a source humidity of 55.55
appears as 55.55 in the context, whereas its one-decimal rounding is 55.6. -/
theorem C5_counterexample :
    (Page2.process_weather_for_llm
        ⟨⟨20, 1111 / 20, 20, 0, 10⟩, ⟨[], [], [], [], [], []⟩⟩
        "Atlanta").current.humidity = 1111 / 20 ∧
    Page2.round1 (1111 / 20) = 278 / 5 ∧
    (Page2.process_weather_for_llm
        ⟨⟨20, 1111 / 20, 20, 0, 10⟩, ⟨[], [], [], [], [], []⟩⟩
        "Atlanta").current.humidity ≠
      Page2.round1
        ((⟨⟨20, 1111 / 20, 20, 0, 10⟩, ⟨[], [], [], [], [], []⟩⟩ :
          Page2.WeatherData).current.relative_humidity_2m) := by
  refine ⟨rfl, ?_, ?_⟩
  · have hf : ⌊(1111 : ℚ) / 2⌋ = 555 := by
      rw [Int.floor_eq_iff]
      norm_num
    simp only [Page2.round1, Page2.roundHalfEven]
    norm_num [hf]
  · intro hcontra
    have hh : (1111 / 20 : ℚ) = Page2.round1 (1111 / 20) := hcontra
    have hf : ⌊(1111 : ℚ) / 2⌋ = 555 := by
      rw [Int.floor_eq_iff]
      norm_num
    rw [Page2.round1, Page2.roundHalfEven] at hh
    norm_num [hf] at hh

/-- C5 amended: for every well-formed weather response (each daily array at
least as long as `daily.time`) the LLM context contains exactly
`min 5 (len daily.time)` daily summaries; current temperature, feels-like
and wind speed are the source values rounded to one decimal, humidity is the
source value copied verbatim (not rounded), the condition is the description
of the source weather code, and every daily summary's numeric fields are the
one-decimal roundings of the source values at the same index — so every
field of the context appears, possibly rounded, in the source. -/
theorem C5_amended (wd : Page2.WeatherData) (city : String)
    (hwf : Page2.wellFormedDaily wd.daily) :
    (Page2.process_weather_for_llm wd city).city = city ∧
    (Page2.process_weather_for_llm wd city).forecast.length =
      min 5 wd.daily.time.length ∧
    (Page2.process_weather_for_llm wd city).current.temperature =
      Page2.round1 wd.current.temperature_2m ∧
    (Page2.process_weather_for_llm wd city).current.feels_like =
      Page2.round1 wd.current.apparent_temperature ∧
    (Page2.process_weather_for_llm wd city).current.humidity =
      wd.current.relative_humidity_2m ∧
    (Page2.process_weather_for_llm wd city).current.wind_speed =
      Page2.round1 wd.current.wind_speed_10m ∧
    (Page2.process_weather_for_llm wd city).current.condition =
      Page2.get_weather_description wd.current.weather_code ∧
    ∀ i (hi : i < (Page2.process_weather_for_llm wd city).forecast.length),
      ∃ (ht : i < wd.daily.time.length)
        (h1 : i < wd.daily.temperature_2m_max.length)
        (h2 : i < wd.daily.temperature_2m_min.length)
        (h3 : i < wd.daily.precipitation_sum.length)
        (h4 : i < wd.daily.wind_speed_10m_max.length)
        (h5 : i < wd.daily.weather_code.length),
        (Page2.process_weather_for_llm wd city).forecast.get ⟨i, hi⟩ =
          { date := wd.daily.time.get ⟨i, ht⟩
            temp_max := Page2.round1 (wd.daily.temperature_2m_max.get ⟨i, h1⟩)
            temp_min := Page2.round1 (wd.daily.temperature_2m_min.get ⟨i, h2⟩)
            precipitation := Page2.round1 (wd.daily.precipitation_sum.get ⟨i, h3⟩)
            wind_max := Page2.round1 (wd.daily.wind_speed_10m_max.get ⟨i, h4⟩)
            condition :=
              Page2.get_weather_description (wd.daily.weather_code.get ⟨i, h5⟩) } := by
  obtain ⟨hw1, hw2, hw3, hw4, hw5⟩ := hwf
  refine ⟨rfl, by simp [Page2.process_weather_for_llm], rfl, rfl, rfl, rfl, rfl, ?_⟩
  intro i hi
  have hin : i < min 5 wd.daily.time.length := by
    simpa [Page2.process_weather_for_llm] using hi
  have ht : i < wd.daily.time.length := lt_of_lt_of_le hin (Nat.min_le_right _ _)
  refine ⟨ht, lt_of_lt_of_le ht hw2, lt_of_lt_of_le ht hw3,
    lt_of_lt_of_le ht hw4, lt_of_lt_of_le ht hw5, lt_of_lt_of_le ht hw1, ?_⟩
  have hget : (Page2.process_weather_for_llm wd city).forecast.get ⟨i, hi⟩ =
      Page2.dayContext wd.daily i := by
    simp [Page2.process_weather_for_llm, List.get_eq_getElem, List.getElem_map,
      List.getElem_range]
  rw [hget, Page2.dayContext]
  simp only [List.get_eq_getElem, List.getD_eq_getElem _ _ ht,
    List.getD_eq_getElem _ _ (lt_of_lt_of_le ht hw2),
    List.getD_eq_getElem _ _ (lt_of_lt_of_le ht hw3),
    List.getD_eq_getElem _ _ (lt_of_lt_of_le ht hw4),
    List.getD_eq_getElem _ _ (lt_of_lt_of_le ht hw5),
    List.getD_eq_getElem _ _ (lt_of_lt_of_le ht hw1)]

/-- C5 witness: the amended theorem applied to a concrete one-day response. -/
theorem C5_amended_witness :
    (Page2.process_weather_for_llm
        ⟨⟨(201 : ℚ) / 10, 55, 19, 61, 12⟩,
          ⟨[3], [63], [25], [15], [1], [30]⟩⟩ "Paris").city = "Paris" ∧
    (Page2.process_weather_for_llm
        ⟨⟨(201 : ℚ) / 10, 55, 19, 61, 12⟩,
          ⟨[3], [63], [25], [15], [1], [30]⟩⟩ "Paris").forecast.length =
      min 5 1 ∧
    (Page2.process_weather_for_llm
        ⟨⟨(201 : ℚ) / 10, 55, 19, 61, 12⟩,
          ⟨[3], [63], [25], [15], [1], [30]⟩⟩ "Paris").current.temperature =
      Page2.round1 ((201 : ℚ) / 10) ∧
    (Page2.process_weather_for_llm
        ⟨⟨(201 : ℚ) / 10, 55, 19, 61, 12⟩,
          ⟨[3], [63], [25], [15], [1], [30]⟩⟩ "Paris").current.humidity = 55 :=
  have h := C5_amended
    ⟨⟨(201 : ℚ) / 10, 55, 19, 61, 12⟩, ⟨[3], [63], [25], [15], [1], [30]⟩⟩
    "Paris" (by decide)
  ⟨h.1, h.2.1, h.2.2.1, h.2.2.2.2.1⟩

/-! ## C6 — the mode aggregate and its tie-breaking -/

theorem lexLe_refl : ∀ l : List Char, Util.lexLe l l = true := by
  intro l
  induction l with
  | nil => rfl
  | cons c t ih => simp [Util.lexLe, ih]

theorem lexLe_total : ∀ a b : List Char,
    Util.lexLe a b = true ∨ Util.lexLe b a = true := by
  intro a
  induction a with
  | nil => intro b; left; rfl
  | cons c t ih =>
    intro b
    cases b with
    | nil => right; rfl
    | cons d u =>
      rcases Nat.lt_trichotomy c.toNat d.toNat with hlt | heq | hgt
      · left; simp [Util.lexLe, hlt]
      · rcases ih u with h | h
        · left; simp [Util.lexLe, heq, Nat.lt_irrefl, h]
        · right; simp [Util.lexLe, heq.symm, Nat.lt_irrefl, h]
      · right; simp [Util.lexLe, hgt]

theorem lexLe_trans : ∀ a b c : List Char, Util.lexLe a b = true →
    Util.lexLe b c = true → Util.lexLe a c = true := by
  intro a
  induction a with
  | nil => intro b c _ _; rfl
  | cons x xs ih =>
    intro b c hab hbc
    cases b with
    | nil => simp [Util.lexLe] at hab
    | cons y ys =>
      cases c with
      | nil => simp [Util.lexLe] at hbc
      | cons z zs =>
        simp only [Util.lexLe] at hab hbc ⊢
        split at hab
        next hxy =>
          split at hbc
          next hyz =>
            have hxz : x.toNat < z.toNat := by omega
            simp [hxz]
          next hyz =>
            split at hbc
            next hyz2 =>
              have hxz : x.toNat < z.toNat := by omega
              simp [hxz]
            next hyz2 => exact absurd hbc (by simp)
        next hxy =>
          split at hab
          next hxy2 =>
            split at hbc
            next hyz =>
              have hxz : x.toNat < z.toNat := by omega
              simp [hxz]
            next hyz =>
              split at hbc
              next hyz2 =>
                have h2 : x.toNat = z.toNat := by omega
                rw [h2]
                simpa [Nat.lt_irrefl] using ih ys zs hab hbc
              next hyz2 => exact absurd hbc (by simp)
          next hxy2 => exact absurd hab (by simp)

/-- Unfolding equation of `leastString` on a cons cell. -/
theorem leastString_cons (s : String) (t : List String) :
    Page1.leastString (s :: t) =
      (match Page1.leastString t with
        | none => some s
        | some m => some (if Util.strLe s m then s else m)) := rfl

/-- `leastString` of a non-empty list is an element that is `lexLe`-below
every element. -/
theorem leastString_spec : ∀ L : List String, L ≠ [] →
    ∃ m, Page1.leastString L = some m ∧ m ∈ L ∧
      ∀ x ∈ L, Util.strLe m x = true := by
  intro L
  induction L with
  | nil => intro hne; cases hne rfl
  | cons s t ih =>
    intro _
    rcases t with _ | ⟨s', t'⟩
    · refine ⟨s, rfl, by simp, ?_⟩
      intro x hx
      have hx2 : x = s := by simpa using hx
      subst hx2
      exact lexLe_refl _
    · obtain ⟨m, hm, hmem, hle⟩ := ih (by simp)
      by_cases hsm : Util.strLe s m = true
      · refine ⟨s, ?_, by simp, ?_⟩
        · rw [leastString_cons, hm]
          simp [hsm]
        · intro x hx
          rcases List.mem_cons.mp hx with rfl | hx
          · exact lexLe_refl _
          · exact lexLe_trans _ m.data x.data hsm (hle x hx)
      · have hms : Util.strLe m s = true := by
          rcases lexLe_total s.data m.data with h | h
          · exact absurd h hsm
          · exact h
        refine ⟨m, ?_, List.mem_cons_of_mem s hmem, ?_⟩
        · rw [leastString_cons, hm]
          simp [hsm]
        · intro x hx
          rcases List.mem_cons.mp hx with rfl | hx
          · exact hms
          · exact hle x hx

/-- Every count of an element of `l` is bounded by `maxFreq l`. -/
theorem count_le_maxFreq (l : List String) : ∀ v ∈ l,
    l.count v ≤ Page1.maxFreq l := by
  intro v hv
  have hmem : l.count v ∈ l.map (fun w => l.count w) :=
    List.mem_map.mpr ⟨v, hv, rfl⟩
  rw [Page1.maxFreq]
  generalize l.map (fun w => l.count w) = m at hmem
  induction m with
  | nil => cases hmem
  | cons a t ih =>
    rcases List.mem_cons.mp hmem with rfl | hm
    · exact Nat.le_max_left _ _
    · exact le_trans (ih hm) (Nat.le_max_right _ _)

/-- On a non-empty list, `maxFreq` is attained by some element. -/
theorem maxFreq_attained (l : List String) (hne : l ≠ []) :
    ∃ v ∈ l, l.count v = Page1.maxFreq l := by
  have hsub : ∀ m : List Nat, m.foldr max 0 ∈ m ∨ m.foldr max 0 = 0 := by
    intro m
    induction m with
    | nil => right; rfl
    | cons a t ih =>
      rcases Nat.le_total a (t.foldr max 0) with h | h
      · rcases ih with hm | hz
        · left; exact List.mem_cons_of_mem a
            (by rwa [List.foldr_cons, Nat.max_eq_right h])
        · rw [List.foldr_cons, Nat.max_eq_left]
          · left; exact List.mem_cons_self a t
          · omega
      · left
        rw [List.foldr_cons, Nat.max_eq_left h]
        exact List.mem_cons_self a t
  rcases hsub (l.map (fun w => l.count w)) with hm | hz
  · obtain ⟨v, hv, hcount⟩ := List.mem_map.mp hm
    exact ⟨v, hv, hcount⟩
  · obtain ⟨a, t, rfl⟩ := List.exists_cons_of_ne_nil hne
    refine ⟨a, List.mem_cons_self a t, ?_⟩
    have h1 : (a :: t).count a ≤ Page1.maxFreq (a :: t) :=
      count_le_maxFreq _ a (List.mem_cons_self a t)
    have h2 : Page1.maxFreq (a :: t) = 0 := hz
    have h3 : 0 < (a :: t).count a := List.count_pos_iff_mem.mpr (List.mem_cons_self a t)
    omega

/-- C6 counterexample: pandas' `mode()[0]` breaks ties by sorted order, not
by first encounter: on the two-element tie `["b", "a"]` the code returns
"a" while the claimed first-encountered tie-break returns "b". -/
theorem C6_counterexample :
    Page1.most_common_weather ["b", "a"] = some "a" ∧
    Page1.spec_mode_first_encountered ["b", "a"] = some "b" ∧
    Page1.most_common_weather ["b", "a"] ≠
      Page1.spec_mode_first_encountered ["b", "a"] := by
  refine ⟨by decide, by decide, by decide⟩

/-- C6 amended: on every non-empty sequence the code's mode aggregate
returns a most frequent value, but ties are broken by the least value in
Python string order (pandas sorts the modes ascending and `[0]` takes the
head), not by first encounter; on a strict plurality it returns the
plurality value, as the spec scenario states. -/
theorem C6_amended (l : List String) (hne : l ≠ []) :
    ∃ m, Page1.most_common_weather l = some m ∧ m ∈ l ∧
      l.count m = Page1.maxFreq l ∧
      (∀ v ∈ l, l.count v ≤ l.count m) ∧
      (∀ v ∈ l, l.count v = l.count m → Util.strLe m v = true) ∧
      (∀ w ∈ l, (∀ v ∈ l, v ≠ w → l.count v < l.count w) →
        Page1.most_common_weather l = some w) := by
  obtain ⟨v0, hv0, hc0⟩ := maxFreq_attained l hne
  have hv0c : v0 ∈ l.dedup.filter (fun v => l.count v = Page1.maxFreq l) :=
    List.mem_filter.mpr ⟨List.mem_dedup.mpr hv0, by simp [hc0]⟩
  obtain ⟨m, hm, hmem, hle⟩ :=
    leastString_spec (l.dedup.filter (fun v => l.count v = Page1.maxFreq l))
      (List.ne_nil_of_mem hv0c)
  have hm' : Page1.most_common_weather l = some m := hm
  obtain ⟨hmd, hmc⟩ := List.mem_filter.mp hmem
  have hml : m ∈ l := List.mem_dedup.mp hmd
  have hcm : l.count m = Page1.maxFreq l := by simpa using hmc
  refine ⟨m, hm', hml, hcm, ?_, ?_, ?_⟩
  · intro v hv
    rw [hcm]
    exact count_le_maxFreq l v hv
  · intro v hv hcv
    refine hle v (List.mem_filter.mpr ⟨List.mem_dedup.mpr hv, ?_⟩)
    simp [hcv, hcm]
  · intro w hw hstrict
    by_cases hmw : m = w
    · rw [hm', hmw]
    · have h1 : l.count m < l.count w := hstrict m hml hmw
      have h2 : l.count w ≤ Page1.maxFreq l := count_le_maxFreq l w hw
      rw [hcm] at h1
      omega

/-- C6 witness: the amended theorem applied to the sequence
`["x", "y", "y"]`, whose strict plurality value is "y". -/
theorem C6_amended_witness :
    ∃ m, Page1.most_common_weather ["x", "y", "y"] = some m ∧
      m ∈ ["x", "y", "y"] ∧
      (["x", "y", "y"] : List String).count m =
        Page1.maxFreq ["x", "y", "y"] ∧
      (∀ v ∈ (["x", "y", "y"] : List String),
        (["x", "y", "y"] : List String).count v ≤
          (["x", "y", "y"] : List String).count m) ∧
      (∀ v ∈ (["x", "y", "y"] : List String),
        (["x", "y", "y"] : List String).count v =
          (["x", "y", "y"] : List String).count m → Util.strLe m v = true) ∧
      (∀ w ∈ (["x", "y", "y"] : List String),
        (∀ v ∈ (["x", "y", "y"] : List String), v ≠ w →
          (["x", "y", "y"] : List String).count v <
            (["x", "y", "y"] : List String).count w) →
        Page1.most_common_weather ["x", "y", "y"] = some w) :=
  C6_amended ["x", "y", "y"] (by decide)

/-! ## C7 — `extract_city_from_message` -/

/-- The combined delimiter test of `cutAt`: a character survives all three
splits exactly when it is none of `'?'`, `','`, `'.'`. -/
def ndPred (c : Char) : Bool := (c != '?') && ((c != ',') && (c != '.'))

theorem takeWhile_takeWhile_comb (p q : Char → Bool) (l : List Char) :
    (l.takeWhile p).takeWhile q = l.takeWhile (fun c => p c && q c) := by
  induction l with
  | nil => rfl
  | cons c t ih =>
    by_cases hp : p c = true
    · by_cases hq : q c = true
      · simp [List.takeWhile_cons, hp, hq, ih]
      · simp [List.takeWhile_cons, hp, hq]
    · simp [List.takeWhile_cons, hp]

/-- `cutAt` is the prefix of characters that are not delimiters. -/
theorem cutAt_eq_takeWhile (l : List Char) : Page3.cutAt l = l.takeWhile ndPred := by
  rw [Page3.cutAt, takeWhile_takeWhile_comb, takeWhile_takeWhile_comb]
  rfl

/-- Whitespace characters are not delimiters. -/
theorem ws_ndPred (c : Char) (h : c.isWhitespace = true) : ndPred c = true := by
  simp [Char.isWhitespace] at h
  rcases h with ((h | h) | h) | h <;> subst h <;> decide

theorem dropWhile_append_of_all (p : Char → Bool) (w x : List Char)
    (hw : ∀ c ∈ w, p c = true) : (w ++ x).dropWhile p = x.dropWhile p := by
  rw [List.dropWhile_append, List.dropWhile_eq_nil_iff.mpr hw]
  simp

theorem takeWhile_append_of_all (p : Char → Bool) (w x : List Char)
    (hw : ∀ c ∈ w, p c = true) : (w ++ x).takeWhile p = w ++ x.takeWhile p := by
  rw [List.takeWhile_append, List.takeWhile_eq_self_iff.mpr hw]
  simp

theorem takeWhile_append_of_ne (p : Char → Bool) (x y : List Char)
    (hx : x.takeWhile p ≠ x) : (x ++ y).takeWhile p = x.takeWhile p := by
  rw [List.takeWhile_append]
  have hlen : (x.takeWhile p).length ≠ x.length := fun hl =>
    hx ((List.takeWhile_prefix p).eq_of_length hl)
  simp [hlen]

/-- `rtrimChars` ignores an all-whitespace suffix. -/
theorem rtrimChars_append_ws (x v : List Char)
    (hv : ∀ c ∈ v, c.isWhitespace = true) :
    Util.rtrimChars (x ++ v) = Util.rtrimChars x := by
  unfold Util.rtrimChars Util.ltrimChars
  rw [List.reverse_append,
    dropWhile_append_of_all _ _ _ (fun c hc => hv c (List.mem_reverse.mp hc))]

/-- `trimChars` ignores an all-whitespace prefix. -/
theorem trimChars_append_ws_left (w x : List Char)
    (hw : ∀ c ∈ w, c.isWhitespace = true) :
    Util.trimChars (w ++ x) = Util.trimChars x := by
  unfold Util.trimChars Util.ltrimChars
  rw [dropWhile_append_of_all _ _ _ hw]

/-- `trimChars` ignores an all-whitespace suffix. -/
theorem trimChars_append_ws_right (x v : List Char)
    (hv : ∀ c ∈ v, c.isWhitespace = true) :
    Util.trimChars (x ++ v) = Util.trimChars x := by
  unfold Util.trimChars
  rw [Util.ltrimChars, Util.ltrimChars, List.dropWhile_append]
  by_cases hemp : (x.dropWhile Char.isWhitespace).isEmpty = true
  · have hxe : x.dropWhile Char.isWhitespace = [] := List.isEmpty_iff.mp hemp
    have hve : v.dropWhile Char.isWhitespace = [] :=
      List.dropWhile_eq_nil_iff.mpr hv
    simp [hemp, hxe, hve]
  · simp only [hemp, if_false, Bool.false_eq_true]
    exact rtrimChars_append_ws _ v hv

/-- Stripping before cutting at the delimiters changes nothing once the
result is stripped: the procedure of the code (`strip`, split, `strip`)
equals the procedure of the claim (split, `strip`). -/
theorem trim_cut_trim (s : List Char) :
    Util.trimChars (Page3.cutAt (Util.trimChars s)) =
      Util.trimChars (Page3.cutAt s) := by
  have hw : ∀ c ∈ s.takeWhile Char.isWhitespace, c.isWhitespace = true :=
    fun c hc => List.mem_takeWhile_imp hc
  have hdecomp : s = s.takeWhile Char.isWhitespace ++ Util.ltrimChars s := by
    rw [Util.ltrimChars, List.takeWhile_append_dropWhile]
  have hcut_s : Page3.cutAt s =
      s.takeWhile Char.isWhitespace ++ Page3.cutAt (Util.ltrimChars s) := by
    conv_lhs => rw [hdecomp]
    rw [cutAt_eq_takeWhile, cutAt_eq_takeWhile]
    exact takeWhile_append_of_all _ _ _ (fun c hc => ws_ndPred c (hw c hc))
  have hrhs : Util.trimChars (Page3.cutAt s) =
      Util.trimChars (Page3.cutAt (Util.ltrimChars s)) := by
    rw [hcut_s]
    exact trimChars_append_ws_left _ _ hw
  have hlhs : Util.trimChars s = Util.rtrimChars (Util.ltrimChars s) := rfl
  rw [hrhs, hlhs]
  -- decompose the stripped-left list into its right-stripped core and an
  -- all-whitespace tail
  set t := Util.ltrimChars s with ht
  have htd : t = Util.rtrimChars t ++
      (t.reverse.takeWhile Char.isWhitespace).reverse := by
    conv_lhs => rw [← List.reverse_reverse t]
    conv_lhs =>
      rw [← List.takeWhile_append_dropWhile (p := Char.isWhitespace)
        (l := t.reverse)]
    rw [List.reverse_append]
    rfl
  have hv : ∀ c ∈ (t.reverse.takeWhile Char.isWhitespace).reverse,
      c.isWhitespace = true :=
    fun c hc => List.mem_takeWhile_imp (List.mem_reverse.mp hc)
  by_cases hc : Page3.cutAt (Util.rtrimChars t) = Util.rtrimChars t
  · have hall : ∀ c ∈ Util.rtrimChars t, ndPred c = true := by
      rw [cutAt_eq_takeWhile] at hc
      exact List.takeWhile_eq_self_iff.mp hc
    have hcut_t : Page3.cutAt t = Util.rtrimChars t ++
        (t.reverse.takeWhile Char.isWhitespace).reverse := by
      conv_lhs => rw [htd]
      rw [cutAt_eq_takeWhile, takeWhile_append_of_all _ _ _ hall,
        List.takeWhile_eq_self_iff.mpr
          (fun c hcm => ws_ndPred c (hv c hcm))]
    rw [hcut_t, hc, trimChars_append_ws_right _ _ hv]
  · have hcut_t : Page3.cutAt t = Page3.cutAt (Util.rtrimChars t) := by
      rw [cutAt_eq_takeWhile] at hc
      conv_lhs => rw [htd]
      rw [cutAt_eq_takeWhile, cutAt_eq_takeWhile]
      exact takeWhile_append_of_ne _ _ _ hc
    rw [hcut_t]

/-- The pattern loop of `extract_city_from_message` returns, for the first
listed pattern that occurs in the lowercased message, the suffix of the
original message after the pattern's first occurrence, cut at the delimiters
and stripped — provided that value is non-empty. -/
theorem extractGo_spec (orig ml : List Char) (p : String) (i : Nat) :
    ∀ ps : List String,
      ps.find? (fun q => Util.containsSub ml q.data) = some p →
      Util.findSub p.data ml = some i →
      Util.trimChars (Page3.cutAt (orig.drop (i + p.data.length))) ≠ [] →
      Page3.extractGo orig ml ps =
        some (String.mk
          (Util.trimChars (Page3.cutAt (orig.drop (i + p.data.length))))) := by
  intro ps
  induction ps with
  | nil => intro hf _ _; simp at hf
  | cons q qs ih =>
    intro hf hfs hne
    by_cases hq : Util.containsSub ml q.data = true
    · have hpq : q = p := by
        rw [List.find?_cons_of_pos (p := fun r => Util.containsSub ml r.data) qs hq]
          at hf
        exact Option.some.inj hf
      subst hpq
      have hemp : (Util.trimChars
          (Page3.cutAt (orig.drop (i + q.data.length)))).isEmpty = false := by
        rw [List.isEmpty_eq_false]
        exact hne
      simp only [Page3.extractGo, hfs, trim_cut_trim, hemp, Bool.false_eq_true,
        if_false]
    · have hnone : Util.findSub q.data ml = none :=
        Option.not_isSome_iff_eq_none.mp (by simpa [Util.containsSub] using hq)
      have hf' : qs.find? (fun r => Util.containsSub ml r.data) = some p := by
        rwa [List.find?_cons_of_neg (p := fun r => Util.containsSub ml r.data) qs
          (by simpa using hq)] at hf
      simp only [Page3.extractGo, hnone]
      exact ih hf' hfs hne

/-- C7 counterexample: the claim fails as stated.  The message
`"weather in ?"` contains the lead-in phrase `"weather in "`, and the
claimed result — the substring after the phrase, cut at `'?'` and stripped —
is the empty string, but the code returns `None` (an empty extraction makes
it fall through).  Moreover, when several phrases occur, the code follows
its fixed pattern-list order, not the textual order of the phrases:
`"forecast for Atlanta, weather in Boston"` extracts "Boston", not
"Atlanta". -/
theorem C7_counterexample :
    Util.findSub "weather in ".data
      (Util.pyLowerChars "weather in ?".data) = some 0 ∧
    Page3.spec_city "weather in ?" "weather in " 0 = "" ∧
    Page3.extract_city_from_message "weather in ?" = none ∧
    Page3.extract_city_from_message "forecast for Atlanta, weather in Boston" =
      some "Boston" := by
  refine ⟨by decide, by decide, by decide, by decide⟩

/-- C7 amended: whenever the first pattern (in the fixed list order) that
occurs case-insensitively in the message yields, per the claim's procedure
— the substring of the original message after the phrase's first
occurrence, cut at the first `'?'`, `','` or `'.'`, stripped of surrounding
whitespace — a non-empty city, `extract_city_from_message` returns exactly
that city; when every matching phrase yields an empty remainder the function
returns `None`. -/
theorem C7_amended (message p : String) (i : Nat)
    (hp : Page3.patterns.find?
      (fun q => Util.containsSub (Util.pyLowerChars message.data) q.data) = some p)
    (hi : Util.findSub p.data (Util.pyLowerChars message.data) = some i)
    (hne : Page3.spec_city message p i ≠ "") :
    Page3.extract_city_from_message message = some (Page3.spec_city message p i) := by
  have hne' : Util.trimChars
      (Page3.cutAt (message.data.drop (i + p.data.length))) ≠ [] := by
    intro h0
    apply hne
    rw [Page3.spec_city, h0]
  rw [Page3.extract_city_from_message]
  exact extractGo_spec message.data (Util.pyLowerChars message.data) p i
    Page3.patterns hp hi hne'

/-- C7 witness: the amended theorem applied to the scenario message
"What's the weather in Tokyo?", where the first matching phrase is
"weather in " at index 11 and the extracted city is "Tokyo". -/
theorem C7_amended_witness :
    Page3.extract_city_from_message "What's the weather in Tokyo?" =
      some "Tokyo" := by
  have h := C7_amended "What's the weather in Tokyo?" "weather in " 11
    (by decide) (by decide) (by decide)
  exact h.trans (by decide)
